import Mathlib

/-!
Verification of the TriblerX session-orchestration core against its
natural-language specification.

The development shallowly embeds the relevant parts of the source:

* `src/tribler/tribler_config.py` — the JSON configuration manager
  (`TriblerConfigManager.get`, `TriblerConfigManager.set`, the constructor
  fallback to `DEFAULT_CONFIG`), whose values are modelled by the inductive
  type `JSON` and whose Python dictionary/containment/attribute semantics
  are modelled by explicit `Except`-returning operations.

* `src/tribler/core/session.py` — `Session.start`, `Session.shutdown` and
  the `rust_enhancements` context manager.  The straight-line bodies of
  `start` and `shutdown` are embedded as the event sequences `startSteps`
  and `shutdownSteps`; Python exception propagation (there is no
  try/except in either method) is embedded by the sequential interpreter
  `runSteps`, which stops at the first step whose effect raises.
-/

/-- A JSON value as produced by `json.load`.  Python `None` and JSON `null`
are identified.  Objects are association lists of string keys (first match
wins, mirroring dictionary lookup); float literals are carried as their
source text in the `flt` constructor, since no verified claim computes with
them. -/
inductive JSON where
  | null : JSON
  | bool (b : Bool) : JSON
  | num (n : Int) : JSON
  | flt (literal : String) : JSON
  | str (s : String) : JSON
  | arr (elts : List JSON) : JSON
  | obj (entries : List (String × JSON)) : JSON

/-- The Python exceptions the embedded code can raise. -/
inductive PyErr where
  | typeError : PyErr
  | attributeError : PyErr
  | keyError (k : String) : PyErr
  | indexError : PyErr
  | other (msg : String) : PyErr
deriving DecidableEq

/-- Dictionary lookup: the value bound to key `k`, if present. -/
def dictLookup (entries : List (String × JSON)) (k : String) : Option JSON :=
  (entries.find? (fun e => e.1 = k)).map (fun e => e.2)

/-- Dictionary assignment `d[k] = v`: replace an existing binding in place,
or append a new one (Python dictionaries keep insertion order). -/
def dictInsert (entries : List (String × JSON)) (k : String) (v : JSON) :
    List (String × JSON) :=
  if (dictLookup entries k).isSome then
    entries.map (fun e => if e.1 = k then (k, v) else e)
  else
    entries ++ [(k, v)]

/-- Equality test of a JSON value against a Python string literal. -/
def jeqStr (v : JSON) (k : String) : Bool :=
  match v with
  | .str s => s = k
  | _ => false

/-- Sublist (contiguous) test on character lists, for Python substring
containment. -/
def subListOf (sub : List Char) : List Char → Bool
  | [] => sub.isEmpty
  | c :: rest => sub.isPrefixOf (c :: rest) || subListOf sub rest

/-- Python truthiness of a JSON value (`if not self.configuration`). -/
def pyTruthy (v : JSON) : Bool :=
  match v with
  | .null => false
  | .bool b => b
  | .num n => n != 0
  | .flt s => !(s == "0.0" || s == "0")
  | .str s => s.length != 0
  | .arr elts => !elts.isEmpty
  | .obj entries => !entries.isEmpty

/-- Python `part in out`: key membership for dictionaries, element equality
for lists, substring containment for strings; a `TypeError` otherwise. -/
def pyContains (v : JSON) (k : String) : Except PyErr Bool :=
  match v with
  | .obj entries => .ok (dictLookup entries k).isSome
  | .arr elts => .ok (elts.any (fun e => jeqStr e k))
  | .str s => .ok (subListOf k.data s.data)
  | _ => .error .typeError

/-- Python `out.get(part)`: defined only on dictionaries (`AttributeError`
otherwise, in particular on `None` after a failed default lookup); a
missing key yields `None`. -/
def pyDictGet (v : JSON) (k : String) : Except PyErr JSON :=
  match v with
  | .obj entries =>
      match dictLookup entries k with
      | some w => .ok w
      | none => .ok .null
  | _ => .error .attributeError

/-- Python subscription `current[part]` with a string key: `KeyError` on a
missing dictionary key, `TypeError` on non-dictionaries. -/
def pyGetItem (v : JSON) (k : String) : Except PyErr JSON :=
  match v with
  | .obj entries =>
      match dictLookup entries k with
      | some w => .ok w
      | none => .error (.keyError k)
  | _ => .error .typeError

/-- Python `del`-free `pop(k)` on a dictionary: remove the binding, raising
`KeyError` when the key is absent (no default argument is passed at the
call site in `rust_enhancements`). -/
def popKey (entries : List (String × JSON)) (k : String) :
    Except PyErr (List (String × JSON)) :=
  if (dictLookup entries k).isSome then
    .ok (entries.filter (fun e => !(e.1 == k)))
  else
    .error (.keyError k)

/-- Resolution of a path through nested dictionaries: succeeds exactly when
every part is a key of the dictionary at its level. -/
def pathLookup : JSON → List String → Option JSON
  | v, [] => some v
  | .obj entries, p :: rest =>
      match dictLookup entries p with
      | some w => pathLookup w rest
      | none => none
  | _, _ :: _ => none

/-- The loaded-configuration walk of `TriblerConfigManager.get` reaches a
containment test that comes back false (the condition under which the code
falls back to `DEFAULT_CONFIG`). -/
def missesKey : JSON → List String → Bool
  | _, [] => false
  | out, p :: rest =>
      match pyContains out p with
      | .ok false => true
      | .ok true =>
          match pyDictGet out p with
          | .ok v => missesKey v rest
          | .error _ => false
      | .error _ => false

/-- Every listed part resolves from the root through dictionaries, and the
final value reached is itself a dictionary. -/
def dictsAlong : JSON → List String → Bool
  | .obj _, [] => true
  | .obj entries, p :: rest =>
      match dictLookup entries p with
      | some child => dictsAlong child rest
      | none => false
  | _, _ => false

/-- The default-configuration walk of `TriblerConfigManager.get`
(`out = DEFAULT_CONFIG; for df_part in Path(option).parts: out = out.get(df_part)`). -/
def defaultWalk (defaults : JSON) (parts : List String) : Except PyErr JSON :=
  parts.foldlM pyDictGet defaults

/-- The main loop of `TriblerConfigManager.get`: walk the loaded
configuration part by part; at the first part not contained in the current
value, re-walk the full option path through `defaults` and stop. -/
def getFrom (defaults : JSON) (allParts : List String) :
    JSON → List String → Except PyErr JSON
  | out, [] => .ok out
  | out, part :: rest => do
      let c ← pyContains out part
      if c then do
        let v ← pyDictGet out part
        getFrom defaults allParts v rest
      else
        defaultWalk defaults allParts

/-- Default configuration of the external `ipv8` dependency, abridged to a
representative concrete value (only its presence as the value of the
`ipv8` key of `DEFAULT_CONFIG`, never its contents, is relied on by any
claim).  The post-construction adjustments of `tribler_config.py` (the
appended secondary key, the overlay filter, the working-directory rewrite)
are folded in. -/
def ipv8_default_config : JSON := .obj [
  ("interfaces", .arr [.obj [("interface", .str "UDPIPv4"),
                             ("ip", .str "0.0.0.0"), ("port", .num 8090)]]),
  ("keys", .arr [.obj [("alias", .str "anonymous id"),
                       ("generation", .str "curve25519"),
                       ("file", .str "ec_multichain.pem")],
                 .obj [("alias", .str "secondary"),
                       ("generation", .str "curve25519"),
                       ("file", .str "secondary_key.pem")]]),
  ("logger", .obj [("level", .str "INFO")]),
  ("working_directory", .str "~/.TriblerExperimental"),
  ("walker_interval", .flt "0.5"),
  ("overlays", .arr [.obj [("class", .str "DiscoveryCommunity")]])]

/-- The entries of `DEFAULT_CONFIG` from `tribler_config.py`.  The
environment-dependent strings (`saveas`, `state_dir`) are fixed to their
tilde-unexpanded spellings; no claim reads them. -/
def DEFAULT_CONFIG_entries : List (String × JSON) := [
  ("api", .obj [("http_enabled", .bool true), ("http_port", .num 0),
                ("http_host", .str "127.0.0.1"), ("https_enabled", .bool false),
                ("https_host", .str "127.0.0.1"), ("https_port", .num 0),
                ("https_certfile", .str "https_certfile")]),
  ("ipv8", ipv8_default_config),
  ("statistics", .bool false),
  ("content_discovery_community", .obj [("enabled", .bool true)]),
  ("database", .obj [("enabled", .bool true)]),
  ("dht_discovery", .obj [("enabled", .bool true)]),
  ("knowledge_community", .obj [("enabled", .bool true)]),
  ("libtorrent", .obj [
     ("socks_listen_ports", .arr [.num 0, .num 0, .num 0, .num 0, .num 0]),
     ("port", .num 0), ("proxy_type", .num 0), ("proxy_server", .str ""),
     ("proxy_auth", .str ""), ("max_connections_download", .num (-1)),
     ("max_download_rate", .num 0), ("max_upload_rate", .num 0),
     ("utp", .bool true), ("dht", .bool true), ("dht_readiness_timeout", .num 30),
     ("upnp", .bool true), ("natpmp", .bool true), ("lsd", .bool true),
     ("download_defaults", .obj [
        ("anonymity_enabled", .bool true), ("number_hops", .num 1),
        ("safeseeding_enabled", .bool true), ("saveas", .str "~/Downloads"),
        ("seeding_mode", .str "forever"), ("seeding_ratio", .flt "2.0"),
        ("seeding_time", .num 60), ("channel_download", .bool false),
        ("add_download_to_channel", .bool false)])]),
  ("rendezvous", .obj [("enabled", .bool true)]),
  ("torrent_checker", .obj [("enabled", .bool true)]),
  ("tunnel_community", .obj [("enabled", .bool true), ("min_circuits", .num 1),
                             ("max_circuits", .num 8)]),
  ("user_activity", .obj [("enabled", .bool true), ("max_query_history", .num 500),
                          ("health_check_interval", .flt "5.0")]),
  ("state_dir", .str "~/.TriblerExperimental"),
  ("memory_db", .bool false)]

/-- The module-level `DEFAULT_CONFIG` dictionary. -/
def DEFAULT_CONFIG : JSON := .obj DEFAULT_CONFIG_entries

/-- Embedding of `TriblerConfigManager.get`: walk the loaded configuration;
on the first part that is not contained in the current value, re-walk the
whole option path through `DEFAULT_CONFIG` instead.  The option is given as
its list of path parts. -/
def TriblerConfigManager.get (configuration : JSON) (option : List String) :
    Except PyErr JSON :=
  getFrom DEFAULT_CONFIG option configuration option

/-- Embedding of `TriblerConfigManager.set`: subscript through all but the
last part of the option path (`current = current[part]`), then assign the
last part in the dictionary reached.  Python mutates the nested dictionary
in place; since `json.load` produces trees, this is embedded as rebuilding
the configuration along the path.  An empty path models `parts[-1]` on an
empty tuple, an `IndexError`. -/
def TriblerConfigManager.set (configuration : JSON) (option : List String)
    (value : JSON) : Except PyErr JSON :=
  match option with
  | [] => .error .indexError
  | [last] =>
      match configuration with
      | .obj entries => .ok (.obj (dictInsert entries last value))
      | _ => .error .typeError
  | p :: rest => do
      match configuration with
      | .obj entries =>
          match dictLookup entries p with
          | some child => do
              let child' ← TriblerConfigManager.set child rest value
              .ok (.obj (dictInsert entries p child'))
          | none => .error (.keyError p)
      | _ => .error .typeError

/-- Embedding of the `TriblerConfigManager` constructor body.  The input
describes the stored configuration file: `none` when the file does not
exist, `some (.error ())` when `json.load` raises `JSONDecodeError` (the
only exception the constructor catches), and `some (.ok v)` when the file
parses to `v`.  In the first two cases `self.configuration` remains the
empty dictionary; any falsy result is then replaced by `DEFAULT_CONFIG`. -/
def TriblerConfigManager.initConfiguration
    (stored : Option (Except Unit JSON)) : JSON :=
  let loaded : JSON :=
    match stored with
    | none => .obj []
    | some (.error _) => .obj []
    | some (.ok v) => v
  if pyTruthy loaded then loaded else DEFAULT_CONFIG

/-- One step of the `except ImportError` loop of `rust_enhancements`
(`for ifc in ...: if ifc["interface"] == "UDPIPv4": ifc.pop("worker_threads")`):
subscript `"interface"`, compare against `"UDPIPv4"`, and pop
`"worker_threads"` with no default argument. -/
def stripIfc (ifc : JSON) : Except PyErr JSON :=
  match ifc with
  | .obj entries =>
      match dictLookup entries "interface" with
      | some v =>
          if jeqStr v "UDPIPv4" then do
            let es ← popKey entries "worker_threads"
            .ok (.obj es)
          else
            .ok ifc
      | none => .error (.keyError "interface")
  | _ => .error .typeError

/-- The `except ImportError` branch of `rust_enhancements` (taken when the
`ipv8_rust_tunnels` package is absent), acting on the
`ipv8/interfaces` list of the session configuration.  The Python loop
mutates interface dictionaries in place one at a time, so on a raising
iteration the earlier interfaces are already stripped and the rest
untouched: the embedding returns the list as mutated so far together with
the exception, if any. -/
def rust_enhancements_absent : List JSON → List JSON × Option PyErr
  | [] => ([], none)
  | ifc :: rest =>
      match stripIfc ifc with
      | .ok ifc' =>
          let (rest', e) := rust_enhancements_absent rest
          (ifc' :: rest', e)
      | .error e => (ifc :: rest, some e)

/-- One step of the pre-`yield` loop of the `try` branch of
`rust_enhancements` (taken when the Rust endpoint imports):
`ifc["worker_threads"] = session.config.get("tunnel_community/max_circuits")`. -/
def installIfc (maxCircuits : JSON) (ifc : JSON) : Except PyErr JSON :=
  match ifc with
  | .obj entries =>
      match dictLookup entries "interface" with
      | some v =>
          if jeqStr v "UDPIPv4" then
            .ok (.obj (dictInsert entries "worker_threads" maxCircuits))
          else
            .ok ifc
      | none => .error (.keyError "interface")
  | _ => .error .typeError

/-- The pre-`yield` loop of the `try` branch of `rust_enhancements`,
mirroring the in-place mutation the same way as `rust_enhancements_absent`. -/
def rust_enhancements_present (maxCircuits : JSON) :
    List JSON → List JSON × Option PyErr
  | [] => ([], none)
  | ifc :: rest =>
      match installIfc maxCircuits ifc with
      | .ok ifc' =>
          let (rest', e) := rust_enhancements_present maxCircuits rest
          (ifc' :: rest', e)
      | .error e => (ifc :: rest, some e)

/-- The observable operations of `Session.start` and `Session.shutdown`,
one constructor per statement of the two method bodies.  The SOCKS servers
are indexed by their position in `session.socks_servers`. -/
inductive Event where
  | notify (state : String) : Event
  | registerRestEndpoints : Event
  | startSocksServer (i : Nat) : Event
  | setSocksListenPorts : Event
  | dmInitialize : Event
  | dmStart : Event
  | registerLaunchers : Event
  | loaderLoad : Event
  | ipv8Start : Event
  | enableOverlayStatistics : Event
  | restManagerStart : Event
  | torrentCheckerShutdown : Event
  | ipv8Stop : Event
  | dmShutdown : Event
  | stopSocksServer (i : Nat) : Event
  | dbShutdown : Event
  | mdsShutdown : Event
  | restManagerStop : Event
deriving DecidableEq

/-- The subsystems the session starts and stops, at the granularity the
shutdown-phase notifications use (the SOCKS listeners are collectively one
subsystem, the local SOCKS5 interface). -/
inductive Subsystem where
  | torrentChecker : Subsystem
  | ipv8 : Subsystem
  | downloadManager : Subsystem
  | socks : Subsystem
  | db : Subsystem
  | mds : Subsystem
  | restApi : Subsystem
deriving DecidableEq

/-- The session attributes that determine which statements of `start` and
`shutdown` execute: the number of configured SOCKS listen ports, the
`statistics` configuration flag, whether `self.ipv8` is set (always true
after `Session.__init__`, but guarded in `shutdown`), and the optional
globals `torrent_checker`, `db` and `mds` that components may set. -/
structure Session where
  numSocks : Nat
  statistics : Bool
  hasIpv8 : Bool
  hasTorrentChecker : Bool
  hasDb : Bool
  hasMds : Bool
deriving DecidableEq

/-- Sequential execution of a statement list under Python exception
semantics: each step either succeeds or raises (per the `fail` oracle); a
raising step ends execution immediately, with the raised exception
propagating to the caller.  The returned trace lists the statements that
were reached, the raising one included. -/
def runSteps (fail : Event → Option PyErr) : List Event → List Event × Option PyErr
  | [] => ([], none)
  | e :: rest =>
      match fail e with
      | some err => ([e], some err)
      | none =>
          let rec_result := runSteps fail rest
          (e :: rec_result.1, rec_result.2)

/-- The statement sequence of `Session.start`, in source order:
register the REST endpoints, start each SOCKS server, hand the listen
ports to the download manager, initialize and start the download manager,
register the launchers and load the communities, start IPv8, optionally
enable overlay statistics, and finally start the REST manager. -/
def startSteps (s : Session) : List Event :=
  [Event.registerRestEndpoints]
    ++ (List.range s.numSocks).map Event.startSocksServer
    ++ [Event.setSocksListenPorts, Event.dmInitialize, Event.dmStart,
        Event.registerLaunchers, Event.loaderLoad, Event.ipv8Start]
    ++ (if s.statistics then [Event.enableOverlayStatistics] else [])
    ++ [Event.restManagerStart]

/-- The notification payload announcing the shutdown phase of each subsystem,
exactly as in `Session.shutdown`. -/
def shutdownPhaseMessage : Subsystem → String
  | .torrentChecker => "Shutting down torrent checker."
  | .ipv8 => "Shutting down IPv8 peer-to-peer overlays."
  | .downloadManager => "Shutting down download manager."
  | .socks => "Shutting down local SOCKS5 interface."
  | .db => "Shutting down general-purpose database."
  | .mds => "Shutting down metadata database."
  | .restApi => "Shutting down GUI connection. Going dark."

/-- The statement sequence of `Session.shutdown`, in source order: the
torrent checker and IPv8 (each behind its truthiness guard), the download
manager, every SOCKS server, the two optional databases, and the REST
manager, each group preceded by its `tribler_shutdown_state`
notification. -/
def shutdownSteps (s : Session) : List Event :=
  (if s.hasTorrentChecker then
     [Event.notify (shutdownPhaseMessage .torrentChecker), Event.torrentCheckerShutdown]
   else [])
    ++ (if s.hasIpv8 then
          [Event.notify (shutdownPhaseMessage .ipv8), Event.ipv8Stop]
        else [])
    ++ [Event.notify (shutdownPhaseMessage .downloadManager), Event.dmShutdown]
    ++ [Event.notify (shutdownPhaseMessage .socks)]
    ++ (List.range s.numSocks).map Event.stopSocksServer
    ++ (if s.hasDb then
          [Event.notify (shutdownPhaseMessage .db), Event.dbShutdown]
        else [])
    ++ (if s.hasMds then
          [Event.notify (shutdownPhaseMessage .mds), Event.mdsShutdown]
        else [])
    ++ [Event.notify (shutdownPhaseMessage .restApi), Event.restManagerStop]

/-- Embedding of `Session.start`: run the statement sequence under the
given exception oracle. -/
def Session.start (s : Session) (fail : Event → Option PyErr) :
    List Event × Option PyErr :=
  runSteps fail (startSteps s)

/-- Embedding of `Session.shutdown`: run the statement sequence under the
given exception oracle. -/
def Session.shutdown (s : Session) (fail : Event → Option PyErr) :
    List Event × Option PyErr :=
  runSteps fail (shutdownSteps s)

/-- The subsystem an event starts, if any. -/
def startSubsystemOf : Event → Option Subsystem
  | .startSocksServer _ => some .socks
  | .dmStart => some .downloadManager
  | .ipv8Start => some .ipv8
  | .restManagerStart => some .restApi
  | _ => none

/-- The subsystem an event stops, if any. -/
def stopSubsystemOf : Event → Option Subsystem
  | .torrentCheckerShutdown => some .torrentChecker
  | .ipv8Stop => some .ipv8
  | .dmShutdown => some .downloadManager
  | .stopSocksServer _ => some .socks
  | .dbShutdown => some .db
  | .mdsShutdown => some .mds
  | .restManagerStop => some .restApi
  | _ => none

/-- Whether an event stops a subsystem. -/
def isStopEvent (e : Event) : Bool :=
  (stopSubsystemOf e).isSome

/-- Collapse adjacent duplicates, so that the run of per-server SOCKS stop
events counts as one stop of the SOCKS subsystem. -/
def collapseAdj : List Subsystem → List Subsystem
  | [] => []
  | [x] => [x]
  | x :: y :: rest =>
      if x = y then collapseAdj (y :: rest) else x :: collapseAdj (y :: rest)

/-- The order in which `Session.start` brings subsystems up. -/
def startOrder (s : Session) : List Subsystem :=
  collapseAdj ((startSteps s).filterMap startSubsystemOf)

/-- The order in which `Session.shutdown` takes subsystems down. -/
def stopOrder (s : Session) : List Subsystem :=
  collapseAdj ((shutdownSteps s).filterMap stopSubsystemOf)

/-- The subsystem a `tribler_shutdown_state` payload announces, if any. -/
def subsystemOfState (msg : String) : Option Subsystem :=
  if msg = shutdownPhaseMessage .torrentChecker then some .torrentChecker
  else if msg = shutdownPhaseMessage .ipv8 then some .ipv8
  else if msg = shutdownPhaseMessage .downloadManager then some .downloadManager
  else if msg = shutdownPhaseMessage .socks then some .socks
  else if msg = shutdownPhaseMessage .db then some .db
  else if msg = shutdownPhaseMessage .mds then some .mds
  else if msg = shutdownPhaseMessage .restApi then some .restApi
  else none

/-- Every stop event in the sequence happens while the matching shutdown
phase is the one most recently announced: a notification sets the current
announced phase, a stop event requires the current phase to name its own
subsystem (so a run of same-subsystem stops after one notification is
allowed), and any other event clears the phase. -/
def stopsNotified : Option Subsystem → List Event → Bool
  | _, [] => true
  | _, .notify msg :: rest => stopsNotified (subsystemOfState msg) rest
  | cur, e :: rest =>
      match stopSubsystemOf e with
      | some s => cur == some s && stopsNotified cur rest
      | none => stopsNotified none rest

/-- The operational phases of `Session.start` named by the specification. -/
inductive Phase where
  | socks : Phase
  | engine : Phase
  | components : Phase
  | overlay : Phase
  | restApi : Phase
deriving DecidableEq

/-- The phase a `Session.start` statement belongs to: starting a SOCKS
listener, initializing or starting the download engine, registering or
loading the launchable components, starting the IPv8 overlay transport,
starting the REST API layer; bookkeeping statements belong to none. -/
def phaseOf : Event → Option Phase
  | .startSocksServer _ => some .socks
  | .dmInitialize => some .engine
  | .dmStart => some .engine
  | .registerLaunchers => some .components
  | .loaderLoad => some .components
  | .ipv8Start => some .overlay
  | .restManagerStart => some .restApi
  | _ => none

/-- The subsystems whose start order `Session.start` and stop order
`Session.shutdown` can be compared on directly: the overlay, the download
engine and the SOCKS listeners (the torrent checker and the databases are
stopped through optional globals that `Session.start` itself never
starts). -/
def isCoreSubsystem (x : Subsystem) : Bool :=
  x == Subsystem.ipv8 || x == Subsystem.downloadManager || x == Subsystem.socks

/-- A shutdown sequence is safely announced when it satisfies
`stopsNotified` whatever the previously announced phase was; lists that
begin with a notification are insensitive to that incoming phase. -/
def startsSafe (l : List Event) : Prop :=
  ∀ c, stopsNotified c l = true

/-- Lookup after a dictionary insertion finds the inserted value. -/
lemma dictLookup_dictInsert_self (entries : List (String × JSON)) (k : String)
    (v : JSON) : dictLookup (dictInsert entries k v) k = some v := by
  unfold dictInsert
  by_cases h : (dictLookup entries k).isSome
  · simp only [h, if_true]
    induction entries with
    | nil => simp [dictLookup] at h
    | cons e rest ih =>
        by_cases he : e.1 = k
        · simp [dictLookup, List.find?_cons, he]
        · simp only [List.map_cons, if_neg he]
          have h' : (dictLookup rest k).isSome := by
            simpa [dictLookup, List.find?_cons, he] using h
          simpa [dictLookup, List.find?_cons, he] using ih h'
  · simp only [h, if_false]
    induction entries with
    | nil => simp [dictLookup, List.find?_cons]
    | cons e rest ih =>
        by_cases he : e.1 = k
        · simp [dictLookup, List.find?_cons, he] at h
        · have h' : ¬(dictLookup rest k).isSome := by
            simpa [dictLookup, List.find?_cons, he] using h
          simpa [dictLookup, List.find?_cons, he] using ih h'

/-- When the whole option path resolves through the loaded configuration,
the main loop of `get` returns the resolved value. -/
lemma getFrom_of_pathLookup (d : JSON) (all : List String) :
    ∀ (parts : List String) (c v : JSON), pathLookup c parts = some v →
      getFrom d all c parts = .ok v := by
  intro parts
  induction parts with
  | nil =>
      intro c v h
      simp only [pathLookup, Option.some.injEq] at h
      subst h
      rfl
  | cons p rest ih =>
      intro c v h
      cases c with
      | obj entries =>
          cases hl : dictLookup entries p with
          | none => simp [pathLookup, hl] at h
          | some w =>
              simp only [pathLookup, hl] at h
              simpa [getFrom, pyContains, pyDictGet, hl, Except.bind] using ih w v h
      | null => simp [pathLookup] at h
      | bool b => simp [pathLookup] at h
      | num n => simp [pathLookup] at h
      | flt s => simp [pathLookup] at h
      | str s => simp [pathLookup] at h
      | arr elts => simp [pathLookup] at h

/-- When the loaded-configuration walk reaches a containment test that is
false, `get` evaluates to the default walk over the full option path. -/
lemma getFrom_of_missesKey (d : JSON) (all : List String) :
    ∀ (parts : List String) (c : JSON), missesKey c parts = true →
      getFrom d all c parts = defaultWalk d all := by
  intro parts
  induction parts with
  | nil => intro c h; simp [missesKey] at h
  | cons p rest ih =>
      intro c h
      cases hc : pyContains c p with
      | error e => simp [missesKey, hc] at h
      | ok b =>
          cases b with
          | false =>
              show (do
                let x ← pyContains c p
                if x then do
                  let v ← pyDictGet c p
                  getFrom d all v rest
                else defaultWalk d all) = defaultWalk d all
              rw [hc]
              exact rfl
          | true =>
              cases hg : pyDictGet c p with
              | error e => simp [missesKey, hc, hg] at h
              | ok w =>
                  simp only [missesKey, hc, hg] at h
                  show (do
                    let x ← pyContains c p
                    if x then do
                      let v ← pyDictGet c p
                      getFrom d all v rest
                    else defaultWalk d all) = defaultWalk d all
                  rw [hc, hg]
                  exact ih w h

/-- A resolved prefix can be removed from the front of a default walk. -/
lemma defaultWalk_append (ps : List String) :
    ∀ (d w : JSON) (rest : List String), pathLookup d ps = some w →
      defaultWalk d (ps ++ rest) = defaultWalk w rest := by
  induction ps with
  | nil =>
      intro d w rest h
      simp only [pathLookup, Option.some.injEq] at h
      subst h
      rfl
  | cons p ps' ih =>
      intro d w rest h
      cases d with
      | obj entries =>
          cases hl : dictLookup entries p with
          | none => simp [pathLookup, hl] at h
          | some x =>
              simp only [pathLookup, hl] at h
              have hg : pyDictGet (.obj entries) p = .ok x := by
                simp [pyDictGet, hl]
              have step : defaultWalk (.obj entries) ((p :: ps') ++ rest) =
                  defaultWalk x (ps' ++ rest) := by
                show (do
                  let s' ← pyDictGet (.obj entries) p
                  List.foldlM pyDictGet s' (ps' ++ rest)) =
                    defaultWalk x (ps' ++ rest)
                rw [hg]
                exact rfl
              rw [step, ih x w rest h]
      | null => simp [pathLookup] at h
      | bool b => simp [pathLookup] at h
      | num n => simp [pathLookup] at h
      | flt s => simp [pathLookup] at h
      | str s => simp [pathLookup] at h
      | arr elts => simp [pathLookup] at h

/-- A fully resolved path makes the default walk return its value. -/
lemma defaultWalk_of_pathLookup (d v : JSON) (parts : List String)
    (h : pathLookup d parts = some v) : defaultWalk d parts = .ok v := by
  have := defaultWalk_append parts d v [] h
  simpa using this

/-- Setting a value at the end of a path of existing nested dictionaries
succeeds, and the value is found back at that path. -/
lemma set_pathLookup (value : JSON) :
    ∀ (ps : List String) (c : JSON) (last : String), dictsAlong c ps = true →
      ∃ c', TriblerConfigManager.set c (ps ++ [last]) value = .ok c' ∧
            pathLookup c' (ps ++ [last]) = some value := by
  intro ps
  induction ps with
  | nil =>
      intro c last h
      cases c with
      | obj entries =>
          refine ⟨.obj (dictInsert entries last value), rfl, ?_⟩
          simp [pathLookup, dictLookup_dictInsert_self]
      | null => simp [dictsAlong] at h
      | bool b => simp [dictsAlong] at h
      | num n => simp [dictsAlong] at h
      | flt s => simp [dictsAlong] at h
      | str s => simp [dictsAlong] at h
      | arr elts => simp [dictsAlong] at h
  | cons p ps' ih =>
      intro c last h
      cases c with
      | obj entries =>
          cases hl : dictLookup entries p with
          | none => simp [dictsAlong, hl] at h
          | some child =>
              simp only [dictsAlong, hl] at h
              obtain ⟨c', hset, hpath⟩ := ih child last h
              refine ⟨.obj (dictInsert entries p c'), ?_, ?_⟩
              · cases ps' with
                | nil =>
                    simp only [List.nil_append] at hset
                    simp only [List.cons_append, List.nil_append]
                    have unf : TriblerConfigManager.set (JSON.obj entries)
                        (p :: [last]) value =
                        (match dictLookup entries p with
                         | some child => do
                             let child' ← TriblerConfigManager.set child [last] value
                             Except.ok (JSON.obj (dictInsert entries p child'))
                         | none => Except.error (PyErr.keyError p)) := rfl
                    rw [unf, hl]
                    show (do
                      let child' ← TriblerConfigManager.set child [last] value
                      Except.ok (JSON.obj (dictInsert entries p child'))) =
                        Except.ok (JSON.obj (dictInsert entries p c'))
                    rw [hset]
                    exact rfl
                | cons q qs =>
                    simp only [List.cons_append] at hset ⊢
                    have unf : TriblerConfigManager.set (JSON.obj entries)
                        (p :: q :: (qs ++ [last])) value =
                        (match dictLookup entries p with
                         | some child => do
                             let child' ← TriblerConfigManager.set child
                                 (q :: (qs ++ [last])) value
                             Except.ok (JSON.obj (dictInsert entries p child'))
                         | none => Except.error (PyErr.keyError p)) := rfl
                    rw [unf, hl]
                    show (do
                      let child' ← TriblerConfigManager.set child
                          (q :: (qs ++ [last])) value
                      Except.ok (JSON.obj (dictInsert entries p child'))) =
                        Except.ok (JSON.obj (dictInsert entries p c'))
                    rw [hset]
                    exact rfl
              · simp [pathLookup, dictLookup_dictInsert_self, hpath]
      | null => simp [dictsAlong] at h
      | bool b => simp [dictsAlong] at h
      | num n => simp [dictsAlong] at h
      | flt s => simp [dictsAlong] at h
      | str s => simp [dictsAlong] at h
      | arr elts => simp [dictsAlong] at h

/-- C5 (code_bug): when the Rust endpoint is absent, the fallback branch of
`rust_enhancements` evaluates `ifc.pop("worker_threads")` with no default
on an interface configuration that never had a `worker_threads` key — the
exact state `Session.__init__` is in on a fresh default configuration — and
so raises `KeyError` instead of stripping the key without raising, crashing
session construction.  The theorem evaluates the embedded branch at that
failing input: the default UDPIPv4 interface configuration. -/
theorem rust_enhancements_absent_raises :
    rust_enhancements_absent
        [JSON.obj [("interface", JSON.str "UDPIPv4"), ("ip", JSON.str "0.0.0.0"),
                   ("port", JSON.num 8090)]] =
      ([JSON.obj [("interface", JSON.str "UDPIPv4"), ("ip", JSON.str "0.0.0.0"),
                  ("port", JSON.num 8090)]],
       some (PyErr.keyError "worker_threads")) := by
  rfl

/-- C6 counterexample: for the option `foo/bar`, absent from the loaded
configuration, `TriblerConfigManager.get` does not return the value found
at that path in `DEFAULT_CONFIG` — no such value exists, and instead of
returning anything the code raises `AttributeError` (`None` has no
attribute `get`), so the claim fails for this path-like option. -/
theorem config_get_counterexample :
    TriblerConfigManager.get (JSON.obj []) ["foo", "bar"] =
      .error .attributeError := by
  rfl

/-- C6 (amended): `TriblerConfigManager.get` returns the stored value when
the whole option path resolves through nested dictionaries of the loaded
configuration, and returns the `DEFAULT_CONFIG` value when the loaded walk
reaches a part that is not contained in the current value and the option
path fully resolves through `DEFAULT_CONFIG`. -/
theorem config_get_stored_or_default (configuration : JSON) (parts : List String) :
    (∀ v, pathLookup configuration parts = some v →
       TriblerConfigManager.get configuration parts = .ok v) ∧
    (missesKey configuration parts = true →
       ∀ d, pathLookup DEFAULT_CONFIG parts = some d →
         TriblerConfigManager.get configuration parts = .ok d) := by
  constructor
  · intro v h
    exact getFrom_of_pathLookup _ _ _ _ _ h
  · intro hm d hd
    show getFrom DEFAULT_CONFIG parts configuration parts = .ok d
    rw [getFrom_of_missesKey _ _ _ _ hm, defaultWalk_of_pathLookup _ _ _ hd]

/-- Witness for `config_get_stored_or_default`, at the stored option
`memory_db` of a one-entry configuration and at the option `statistics`
absent from an empty loaded configuration and defaulted to `False`. -/
theorem config_get_stored_or_default_witness :
    TriblerConfigManager.get (JSON.obj [("memory_db", JSON.bool true)])
        ["memory_db"] = .ok (JSON.bool true) ∧
    TriblerConfigManager.get (JSON.obj []) ["statistics"] = .ok (JSON.bool false) :=
  ⟨(config_get_stored_or_default (JSON.obj [("memory_db", JSON.bool true)])
        ["memory_db"]).1 _ (by rfl),
   (config_get_stored_or_default (JSON.obj []) ["statistics"]).2 (by rfl) _ (by rfl)⟩

/-- C8: when every non-final part of the option path resolves to a
dictionary present in the loaded configuration, `set` succeeds and a
subsequent `get` of the same option returns exactly the value written. -/
theorem config_set_get_roundtrip (configuration value : JSON) (ps : List String)
    (last : String) (h : dictsAlong configuration ps = true) :
    ∃ c', TriblerConfigManager.set configuration (ps ++ [last]) value = .ok c' ∧
          TriblerConfigManager.get c' (ps ++ [last]) = .ok value := by
  obtain ⟨c', hset, hpath⟩ := set_pathLookup value ps configuration last h
  exact ⟨c', hset, getFrom_of_pathLookup _ _ _ _ _ hpath⟩

/-- Witness for `config_set_get_roundtrip`, writing
`tunnel_community/min_circuits` in a configuration whose
`tunnel_community` section exists. -/
theorem config_set_get_roundtrip_witness :
    ∃ c', TriblerConfigManager.set
        (JSON.obj [("tunnel_community", JSON.obj [("enabled", JSON.bool true)])])
        (["tunnel_community"] ++ ["min_circuits"]) (JSON.num 4) = .ok c' ∧
      TriblerConfigManager.get c' (["tunnel_community"] ++ ["min_circuits"]) =
        .ok (JSON.num 4) :=
  config_set_get_roundtrip
    (JSON.obj [("tunnel_community", JSON.obj [("enabled", JSON.bool true)])])
    (JSON.num 4) ["tunnel_community"] "min_circuits" (by rfl)

/-- C9: a multi-part option whose fallback walk meets a part absent from
`DEFAULT_CONFIG` at a non-final position makes `get` raise
`AttributeError` (the `None` returned for the absent part has no `get`
attribute), while a single-part option absent from both the loaded
configuration and `DEFAULT_CONFIG` returns `None`. -/
theorem config_get_totality_boundary (configuration : JSON) (ps qs : List String)
    (p q p1 : String) (es : List (String × JSON)) :
    (missesKey configuration (ps ++ p :: q :: qs) = true →
     pathLookup DEFAULT_CONFIG ps = some (.obj es) →
     dictLookup es p = none →
     TriblerConfigManager.get configuration (ps ++ p :: q :: qs) =
       .error .attributeError) ∧
    (pyContains configuration p1 = .ok false →
     dictLookup DEFAULT_CONFIG_entries p1 = none →
     TriblerConfigManager.get configuration [p1] = .ok .null) := by
  constructor
  · intro hm hd hp
    show getFrom DEFAULT_CONFIG (ps ++ p :: q :: qs) configuration
        (ps ++ p :: q :: qs) = _
    rw [getFrom_of_missesKey _ _ _ _ hm, defaultWalk_append ps _ _ _ hd]
    show (do
      let s1 ← pyDictGet (.obj es) p
      List.foldlM pyDictGet s1 (q :: qs)) = .error .attributeError
    have h1 : pyDictGet (.obj es) p = .ok .null := by simp [pyDictGet, hp]
    rw [h1]
    exact rfl
  · intro hc hd
    show (do
      let x ← pyContains configuration p1
      if x then do
        let v ← pyDictGet configuration p1
        getFrom DEFAULT_CONFIG [p1] v []
      else defaultWalk DEFAULT_CONFIG [p1]) = .ok .null
    rw [hc]
    show defaultWalk DEFAULT_CONFIG [p1] = .ok .null
    show (do
      let s1 ← pyDictGet DEFAULT_CONFIG p1
      List.foldlM pyDictGet s1 ([] : List String)) = .ok .null
    have h1 : pyDictGet DEFAULT_CONFIG p1 = .ok .null := by
      simp [DEFAULT_CONFIG, pyDictGet, hd]
    rw [h1]
    exact rfl

/-- Witness for `config_get_totality_boundary`: the option `telemetry/x`
is absent from an empty loaded configuration and from `DEFAULT_CONFIG`, so
`get` raises; the single-part option `telemetry` returns `None`. -/
theorem config_get_totality_boundary_witness :
    TriblerConfigManager.get (JSON.obj []) (([] : List String) ++ "telemetry" :: "x" :: []) =
      .error .attributeError ∧
    TriblerConfigManager.get (JSON.obj []) ["telemetry"] = .ok .null :=
  ⟨(config_get_totality_boundary (JSON.obj []) [] [] "telemetry" "x" "telemetry"
      DEFAULT_CONFIG_entries).1 (by rfl) (by rfl) (by rfl),
   (config_get_totality_boundary (JSON.obj []) [] [] "telemetry" "x" "telemetry"
      DEFAULT_CONFIG_entries).2 (by rfl) (by rfl)⟩

/-- C10: the constructor of `TriblerConfigManager` always leaves a truthy
(non-empty) configuration behind and never lets a parse failure escape: a
missing file, a stored empty object and malformed JSON (the caught
`JSONDecodeError`) all fall back to `DEFAULT_CONFIG`. -/
theorem config_init_never_empty (stored : Option (Except Unit JSON)) :
    pyTruthy (TriblerConfigManager.initConfiguration stored) = true ∧
    TriblerConfigManager.initConfiguration none = DEFAULT_CONFIG ∧
    TriblerConfigManager.initConfiguration (some (.error ())) = DEFAULT_CONFIG ∧
    TriblerConfigManager.initConfiguration (some (.ok (JSON.obj []))) =
      DEFAULT_CONFIG := by
  refine ⟨?_, rfl, rfl, rfl⟩
  cases stored with
  | none => rfl
  | some r =>
      cases r with
      | error u => rfl
      | ok v =>
          show pyTruthy (if pyTruthy v then v else DEFAULT_CONFIG) = true
          by_cases h : pyTruthy v
          · rw [if_pos h]
            exact h
          · rw [if_neg h]
            rfl

/-- A run in which no statement raises executes every statement and
returns normally. -/
lemma runSteps_ok (fail : Event → Option PyErr) :
    ∀ steps : List Event, (∀ x ∈ steps, fail x = none) →
      runSteps fail steps = (steps, none) := by
  intro steps
  induction steps with
  | nil => intro h; rfl
  | cons e rest ih =>
      intro h
      have he : fail e = none := h e (List.mem_cons_self e rest)
      have hr := ih (fun x hx => h x (List.mem_cons_of_mem e hx))
      simp [runSteps, he, hr]

/-- A run raising at statement `x` executes exactly the statements up to
and including `x` and propagates the exception. -/
lemma runSteps_fail (fail : Event → Option PyErr) (x : Event) (err : PyErr)
    (hx : fail x = some err) :
    ∀ (pre post : List Event), (∀ y ∈ pre, fail y = none) →
      runSteps fail (pre ++ x :: post) = (pre ++ [x], some err) := by
  intro pre
  induction pre with
  | nil =>
      intro post h
      simp [runSteps, hx]
  | cons e rest ih =>
      intro post h
      have he : fail e = none := h e (List.mem_cons_self e rest)
      have hr := ih post (fun y hy => h y (List.mem_cons_of_mem e hy))
      simp [runSteps, he, hr]

/-- The executed trace of a run is a prefix of the statement sequence. -/
lemma runSteps_initial_segment (fail : Event → Option PyErr) :
    ∀ steps : List Event, ∃ t, steps = (runSteps fail steps).1 ++ t := by
  intro steps
  induction steps with
  | nil => exact ⟨[], rfl⟩
  | cons e rest ih =>
      cases hf : fail e with
      | some err => exact ⟨rest, by simp [runSteps, hf]⟩
      | none =>
          obtain ⟨t, ht⟩ := ih
          refine ⟨t, ?_⟩
          simp only [runSteps, hf]
          exact congrArg (e :: ·) ht

/-- No statement of `Session.start` stops a subsystem. -/
lemma startSteps_no_stops (s : Session) :
    ∀ z ∈ startSteps s, isStopEvent z = false := by
  have hmap : ∀ n : Nat, ((List.range n).map Event.startSocksServer).all
      (fun z => !isStopEvent z) = true := by
    intro n
    rw [List.all_eq_true]
    intro z hz
    obtain ⟨i, -, rfl⟩ := List.mem_map.1 hz
    rfl
  have hall : (startSteps s).all (fun z => !isStopEvent z) = true := by
    cases hs : s.statistics <;>
      simp [startSteps, hs, List.all_append, hmap, isStopEvent, stopSubsystemOf]
  intro z hz
  simpa using List.all_eq_true.1 hall z hz

/-- The SOCKS start statements all belong to the SOCKS phase. -/
lemma filterMap_phase_socks (n : Nat) :
    ((List.range n).map Event.startSocksServer).filterMap phaseOf =
      List.replicate n Phase.socks := by
  rw [List.filterMap_map]
  have h : phaseOf ∘ Event.startSocksServer =
      some ∘ (Function.const Nat Phase.socks) := rfl
  rw [h, List.filterMap_eq_map, List.map_const, List.length_range]

/-- The SOCKS start statements all belong to the SOCKS phase (composed
form, as produced by rewriting with `List.filterMap_map`). -/
lemma filterMap_phase_socks_comp (n : Nat) :
    List.filterMap (phaseOf ∘ Event.startSocksServer) (List.range n) =
      List.replicate n Phase.socks := by
  have h : phaseOf ∘ Event.startSocksServer =
      some ∘ (Function.const Nat Phase.socks) := rfl
  rw [h, List.filterMap_eq_map, List.map_const, List.length_range]

/-- The last element of a cons-and-append list is the last element of its
final part. -/
lemma getLast?_cons_append {α : Type} (a b : α) (l1 l2 : List α)
    (h : l2.getLast? = some b) : (a :: (l1 ++ l2)).getLast? = some b := by
  have e : a :: (l1 ++ l2) = [a] ++ (l1 ++ l2) := rfl
  rw [e, List.getLast?_append, List.getLast?_append, h]
  rfl

/-- C3: when no statement raises, `Session.start` executes its statement
sequence in source order and, projected onto the operational phases, that
order is strict: every SOCKS listener start, then download-engine
initialization and start, then component registration and loading, then
the overlay transport start, and the REST API layer start as the very last
statement of the whole sequence. -/
theorem session_start_strict_order (s : Session) (fail : Event → Option PyErr)
    (h : ∀ x ∈ startSteps s, fail x = none) :
    Session.start s fail = (startSteps s, none) ∧
    (Session.start s fail).1.filterMap phaseOf =
      List.replicate s.numSocks Phase.socks ++
        [Phase.engine, Phase.engine, Phase.components, Phase.components,
         Phase.overlay, Phase.restApi] ∧
    (Session.start s fail).1.getLast? = some Event.restManagerStart := by
  have h1 : Session.start s fail = (startSteps s, none) := runSteps_ok fail _ h
  refine ⟨h1, ?_, ?_⟩
  · rw [h1]
    cases hs : s.statistics <;>
      simp [startSteps, hs, List.filterMap_append, filterMap_phase_socks,
        filterMap_phase_socks_comp, phaseOf]
  · rw [h1]
    cases hs : s.statistics <;> simp [startSteps, hs] <;>
      exact getLast?_cons_append _ _ _ _ (by rfl)

/-- Witness for `session_start_strict_order` on a session with two SOCKS
listeners and no failing statement. -/
theorem session_start_strict_order_witness :
    Session.start ⟨2, false, true, false, false, false⟩ (fun _ => none) =
      (startSteps ⟨2, false, true, false, false, false⟩, none) :=
  (session_start_strict_order ⟨2, false, true, false, false, false⟩
    (fun _ => none) (fun _ _ => rfl)).1

/-- C4: if a statement of `Session.start` raises while all earlier ones
succeed, startup stops right there, the exception is surfaced to the
caller as the result, the executed trace consists exactly of the earlier
statements (so everything started earlier stays started), and no statement
of the trace stops any subsystem — there is no rollback. -/
theorem session_start_abort (s : Session) (fail : Event → Option PyErr)
    (pre post : List Event) (x : Event) (err : PyErr)
    (hsteps : startSteps s = pre ++ x :: post)
    (hpre : ∀ y ∈ pre, fail y = none) (hx : fail x = some err) :
    Session.start s fail = (pre ++ [x], some err) ∧
    ∀ z ∈ pre ++ [x], isStopEvent z = false := by
  constructor
  · show runSteps fail (startSteps s) = _
    rw [hsteps]
    exact runSteps_fail fail x err hx pre post hpre
  · intro z hz
    apply startSteps_no_stops s
    rw [hsteps]
    rcases List.mem_append.1 hz with hmem | hmem
    · exact List.mem_append.2 (Or.inl hmem)
    · rw [List.mem_singleton.1 hmem]
      exact List.mem_append.2 (Or.inr (List.mem_cons_self x post))

/-- Witness for `session_start_abort`: the community loading step raises
on a one-listener session; the SOCKS listener and the download manager,
started earlier, appear in the trace and nothing is stopped. -/
theorem session_start_abort_witness :
    Session.start ⟨1, false, true, false, false, false⟩
        (fun e => if e = Event.loaderLoad
                  then some (PyErr.other "start failure") else none) =
      ([Event.registerRestEndpoints, Event.startSocksServer 0,
        Event.setSocksListenPorts, Event.dmInitialize, Event.dmStart,
        Event.registerLaunchers] ++ [Event.loaderLoad],
       some (PyErr.other "start failure")) :=
  (session_start_abort ⟨1, false, true, false, false, false⟩
    (fun e => if e = Event.loaderLoad
              then some (PyErr.other "start failure") else none)
    [Event.registerRestEndpoints, Event.startSocksServer 0,
     Event.setSocksListenPorts, Event.dmInitialize, Event.dmStart,
     Event.registerLaunchers]
    [Event.ipv8Start, Event.restManagerStart]
    Event.loaderLoad (PyErr.other "start failure")
    (by rfl) (by decide) (by rfl)).1

/-- C1 counterexample: on a session with every optional subsystem present,
an exception from stopping IPv8 ends `Session.shutdown` immediately — the
download manager, the SOCKS listeners, the databases and the REST manager
are never stopped, and the exception propagates instead of being collected
and reported after the sequence completes. -/
theorem shutdown_abort_counterexample :
    Event.dmShutdown ∉ (Session.shutdown ⟨5, false, true, true, true, true⟩
        (fun e => if e = Event.ipv8Stop
                  then some (PyErr.other "stop failure") else none)).1 ∧
    Event.restManagerStop ∉ (Session.shutdown ⟨5, false, true, true, true, true⟩
        (fun e => if e = Event.ipv8Stop
                  then some (PyErr.other "stop failure") else none)).1 ∧
    (Session.shutdown ⟨5, false, true, true, true, true⟩
        (fun e => if e = Event.ipv8Stop
                  then some (PyErr.other "stop failure") else none)).2 =
      some (PyErr.other "stop failure") := by
  decide

/-- C1 (amended): if stopping a subsystem raises during `Session.shutdown`
while every earlier statement succeeded, the shutdown sequence is aborted
at that statement: the executed trace is exactly the statements up to and
including the raising one, the remaining subsystems are not stopped, and
the exception propagates to the caller instead of being collected. -/
theorem shutdown_aborts_on_first_failure (s : Session)
    (fail : Event → Option PyErr) (pre post : List Event) (x : Event)
    (err : PyErr) (hsteps : shutdownSteps s = pre ++ x :: post)
    (hpre : ∀ y ∈ pre, fail y = none) (hx : fail x = some err) :
    Session.shutdown s fail = (pre ++ [x], some err) := by
  show runSteps fail (shutdownSteps s) = _
  rw [hsteps]
  exact runSteps_fail fail x err hx pre post hpre

/-- Witness for `shutdown_aborts_on_first_failure`: IPv8 fails to stop on
a one-listener session with a torrent checker, and the trace ends at the
IPv8 stop. -/
theorem shutdown_aborts_on_first_failure_witness :
    Session.shutdown ⟨1, false, true, true, false, false⟩
        (fun e => if e = Event.ipv8Stop
                  then some (PyErr.other "stop failure") else none) =
      ([Event.notify "Shutting down torrent checker.",
        Event.torrentCheckerShutdown,
        Event.notify "Shutting down IPv8 peer-to-peer overlays."] ++
        [Event.ipv8Stop],
       some (PyErr.other "stop failure")) :=
  shutdown_aborts_on_first_failure ⟨1, false, true, true, false, false⟩
    (fun e => if e = Event.ipv8Stop
              then some (PyErr.other "stop failure") else none)
    [Event.notify "Shutting down torrent checker.",
     Event.torrentCheckerShutdown,
     Event.notify "Shutting down IPv8 peer-to-peer overlays."]
    [Event.notify "Shutting down download manager.", Event.dmShutdown,
     Event.notify "Shutting down local SOCKS5 interface.",
     Event.stopSocksServer 0,
     Event.notify "Shutting down GUI connection. Going dark.",
     Event.restManagerStop]
    Event.ipv8Stop (PyErr.other "stop failure")
    (by rfl) (by decide) (by rfl)

/-- Collapsing a run of one repeated subsystem yields that subsystem. -/
lemma collapseAdj_cons_replicate_self (m : Nat) (x : Subsystem) :
    collapseAdj (x :: List.replicate m x) = [x] := by
  induction m with
  | zero => rfl
  | succ k ih =>
      rw [List.replicate_succ]
      simpa [collapseAdj] using ih

/-- Collapsing a nonempty run of `x` followed by a different element keeps
one `x` in front. -/
lemma collapseAdj_replicate_cons (m : Nat) (x y : Subsystem) (hxy : x ≠ y)
    (rest : List Subsystem) :
    collapseAdj (List.replicate (m + 1) x ++ y :: rest) =
      x :: collapseAdj (y :: rest) := by
  induction m with
  | zero =>
      show collapseAdj (x :: y :: rest) = x :: collapseAdj (y :: rest)
      simp [collapseAdj, hxy]
  | succ k ih =>
      have e1 : List.replicate (k + 1 + 1) x ++ y :: rest =
          x :: x :: (List.replicate k x ++ y :: rest) := by
        simp [List.replicate_succ]
      have e2 : List.replicate (k + 1) x ++ y :: rest =
          x :: (List.replicate k x ++ y :: rest) := by
        simp [List.replicate_succ]
      rw [e1]
      show (if x = x then collapseAdj (x :: (List.replicate k x ++ y :: rest))
            else x :: collapseAdj (x :: (List.replicate k x ++ y :: rest))) =
          x :: collapseAdj (y :: rest)
      rw [if_pos rfl, ← e2]
      exact ih

/-- The per-server SOCKS stop statements all stop the SOCKS subsystem. -/
lemma filterMap_stop_socks_comp (n : Nat) :
    List.filterMap (stopSubsystemOf ∘ Event.stopSocksServer) (List.range n) =
      List.replicate n Subsystem.socks := by
  have h : stopSubsystemOf ∘ Event.stopSocksServer =
      some ∘ (Function.const Nat Subsystem.socks) := rfl
  rw [h, List.filterMap_eq_map, List.map_const, List.length_range]

/-- The per-server SOCKS start statements all start the SOCKS subsystem. -/
lemma filterMap_start_socks_comp (n : Nat) :
    List.filterMap (startSubsystemOf ∘ Event.startSocksServer) (List.range n) =
      List.replicate n Subsystem.socks := by
  have h : startSubsystemOf ∘ Event.startSocksServer =
      some ∘ (Function.const Nat Subsystem.socks) := rfl
  rw [h, List.filterMap_eq_map, List.map_const, List.length_range]

/-- The core subsystems are kept by the core filter. -/
lemma filter_isCore_replicate_socks (n : Nat) :
    (List.replicate n Subsystem.socks).filter isCoreSubsystem =
      List.replicate n Subsystem.socks := by
  induction n with
  | zero => rfl
  | succ k ih =>
      rw [List.replicate_succ]
      simp [List.filter_cons, isCoreSubsystem, ih, List.replicate_succ]

/-- C2 counterexample: on a session with five SOCKS listeners and every
optional subsystem present, the subsystem stop order of `Session.shutdown`
is not the reverse of the subsystem start order of `Session.start`; in
particular the REST API layer is not stopped first but last, and the SOCKS
listeners are not stopped last. -/
theorem shutdown_order_counterexample :
    stopOrder ⟨5, false, true, true, true, true⟩ ≠
      (startOrder ⟨5, false, true, true, true, true⟩).reverse ∧
    (stopOrder ⟨5, false, true, true, true, true⟩).head? ≠
      some Subsystem.restApi ∧
    (stopOrder ⟨5, false, true, true, true, true⟩).getLast? ≠
      some Subsystem.socks ∧
    (stopOrder ⟨5, false, true, true, true, true⟩).getLast? =
      some Subsystem.restApi := by
  decide

/-- C2 (amended): restricted to the subsystems that `Session.start` itself
starts, the stop order is the reverse of the start order for the overlay,
the download engine and the SOCKS listeners (IPv8 first, the SOCKS
listeners last of the three), but the REST API layer — started last — is
also stopped last, not first; the torrent checker and the databases have
no start counterpart in `Session.start`. -/
theorem shutdown_partial_reverse_of_start (s : Session)
    (hn : 0 < s.numSocks) (hi : s.hasIpv8 = true) :
    collapseAdj (((shutdownSteps s).filterMap stopSubsystemOf).filter
        isCoreSubsystem) =
      [Subsystem.ipv8, Subsystem.downloadManager, Subsystem.socks] ∧
    collapseAdj (((startSteps s).filterMap startSubsystemOf).filter
        isCoreSubsystem) =
      [Subsystem.socks, Subsystem.downloadManager, Subsystem.ipv8] ∧
    ((shutdownSteps s).filterMap stopSubsystemOf).getLast? =
      some Subsystem.restApi ∧
    ((startSteps s).filterMap startSubsystemOf).getLast? =
      some Subsystem.restApi := by
  obtain ⟨n, stats, i8, tc, db, mds⟩ := s
  simp only at hn hi
  subst hi
  obtain ⟨m, rfl⟩ : ∃ m, n = m + 1 := ⟨n - 1, by omega⟩
  refine ⟨?_, ?_, ?_, ?_⟩
  · cases tc <;> cases db <;> cases mds <;>
      simp [shutdownSteps, List.filterMap_append, List.filter_append,
        List.filterMap_map, filterMap_stop_socks_comp, stopSubsystemOf,
        isCoreSubsystem, filter_isCore_replicate_socks, List.replicate_succ,
        collapseAdj, collapseAdj_cons_replicate_self]
  · cases stats <;>
      simp only [startSteps, List.filterMap_append, List.filter_append,
        List.filterMap_map, filterMap_start_socks_comp, List.filterMap_cons,
        List.filterMap_nil, startSubsystemOf, if_true, if_false] <;>
      simp only [List.filter_cons, List.filter_nil, isCoreSubsystem,
        filter_isCore_replicate_socks] <;>
      simp <;>
      rw [collapseAdj_replicate_cons m _ _ (by decide)] <;>
      decide
  · cases tc <;> cases db <;> cases mds <;>
      simp [shutdownSteps, List.filterMap_append, List.getLast?_append,
        List.filterMap_map, filterMap_stop_socks_comp, stopSubsystemOf] <;>
      exact getLast?_cons_append _ _ _ _ (by rfl)
  · cases stats <;>
      simp [startSteps, List.filterMap_append, List.getLast?_append,
        List.filterMap_map, filterMap_start_socks_comp, startSubsystemOf]

/-- Witness for `shutdown_partial_reverse_of_start` on a session with
three SOCKS listeners, statistics enabled, a torrent checker and a
metadata database. -/
theorem shutdown_partial_reverse_of_start_witness :
    collapseAdj (((shutdownSteps ⟨3, true, true, true, false, true⟩).filterMap
        stopSubsystemOf).filter isCoreSubsystem) =
      [Subsystem.ipv8, Subsystem.downloadManager, Subsystem.socks] :=
  (shutdown_partial_reverse_of_start ⟨3, true, true, true, false, true⟩
    (by decide) (by rfl)).1

/-- Unfolding `stopsNotified` at a notification. -/
lemma stopsNotified_cons_notify (c : Option Subsystem) (m : String)
    (rest : List Event) :
    stopsNotified c (Event.notify m :: rest) =
      stopsNotified (subsystemOfState m) rest := rfl

/-- Unfolding `stopsNotified` at a subsystem stop statement. -/
lemma stopsNotified_cons_stop (c : Option Subsystem) (e : Event)
    (s0 : Subsystem) (rest : List Event) (h : stopSubsystemOf e = some s0) :
    stopsNotified c (e :: rest) =
      ((c == some s0) && stopsNotified c rest) := by
  cases e <;> simp only [stopSubsystemOf, Option.some.injEq] at h <;>
    first
      | exact Option.noConfusion h
      | (subst h; rfl)

/-- Unfolding `stopsNotified` at a statement that neither notifies nor
stops. -/
lemma stopsNotified_cons_other (c : Option Subsystem) (e : Event)
    (rest : List Event) (h1 : stopSubsystemOf e = none)
    (h2 : ∀ m, e ≠ Event.notify m) :
    stopsNotified c (e :: rest) = stopsNotified none rest := by
  cases e <;> simp only [stopSubsystemOf] at h1 <;>
    first
      | exact Option.noConfusion h1
      | rfl
      | exact absurd rfl (h2 _)

/-- `stopsNotified` is closed under taking prefixes. -/
lemma stopsNotified_append_left :
    ∀ (l1 l2 : List Event) (c : Option Subsystem),
      stopsNotified c (l1 ++ l2) = true → stopsNotified c l1 = true := by
  intro l1
  induction l1 with
  | nil => intro l2 c h; rfl
  | cons e rest ih =>
      intro l2 c h
      by_cases hn : ∃ m, e = Event.notify m
      · obtain ⟨m, rfl⟩ := hn
        rw [List.cons_append, stopsNotified_cons_notify] at h
        rw [stopsNotified_cons_notify]
        exact ih l2 _ h
      · push_neg at hn
        cases hs : stopSubsystemOf e with
        | some s0 =>
            rw [List.cons_append, stopsNotified_cons_stop c e s0 _ hs,
              Bool.and_eq_true] at h
            rw [stopsNotified_cons_stop c e s0 _ hs, Bool.and_eq_true]
            exact ⟨h.1, ih l2 c h.2⟩
        | none =>
            rw [List.cons_append, stopsNotified_cons_other c e _ hs hn] at h
            rw [stopsNotified_cons_other c e _ hs hn]
            exact ih l2 none h

/-- An optionally present announced segment preserves safety. -/
lemma startsSafe_if (b : Bool) (seg rest : List Event)
    (hconc : startsSafe (seg ++ rest)) (hrest : startsSafe rest) :
    startsSafe ((if b then seg else []) ++ rest) := by
  cases b
  · simpa using hrest
  · simpa using hconc

/-- A notification followed by the stop of the announced subsystem is
safely announced when the continuation is. -/
lemma startsSafe_notify_stop (m : String) (e : Event) (s0 : Subsystem)
    (rest : List Event) (h1 : subsystemOfState m = some s0)
    (h2 : stopSubsystemOf e = some s0) (hrest : startsSafe rest) :
    startsSafe (Event.notify m :: e :: rest) := by
  intro c
  rw [stopsNotified_cons_notify, h1, stopsNotified_cons_stop _ _ _ _ h2]
  simp [hrest (some s0)]

/-- A run of SOCKS server stops under the announced SOCKS phase passes
through unchanged. -/
lemma stopsNotified_socks_run :
    ∀ (l : List Nat) (rest : List Event),
      stopsNotified (some Subsystem.socks)
          (l.map Event.stopSocksServer ++ rest) =
        stopsNotified (some Subsystem.socks) rest := by
  intro l
  induction l with
  | nil => intro rest; rfl
  | cons i l' ih =>
      intro rest
      rw [List.map_cons, List.cons_append,
        stopsNotified_cons_stop _ (Event.stopSocksServer i) Subsystem.socks _ rfl]
      simp [ih rest]

/-- Every subsystem stop in the full shutdown statement sequence happens
under the matching announced phase. -/
lemma shutdownSteps_stopsNotified (s : Session) :
    stopsNotified none (shutdownSteps s) = true := by
  have hrest : startsSafe [Event.notify (shutdownPhaseMessage .restApi),
      Event.restManagerStop] := by
    intro c
    rw [stopsNotified_cons_notify]
    decide
  have hmds : startsSafe ((if s.hasMds then
      [Event.notify (shutdownPhaseMessage .mds), Event.mdsShutdown]
    else []) ++ [Event.notify (shutdownPhaseMessage .restApi),
      Event.restManagerStop]) :=
    startsSafe_if _ _ _
      (startsSafe_notify_stop _ _ Subsystem.mds _ (by rfl) rfl hrest) hrest
  have hdb : startsSafe ((if s.hasDb then
      [Event.notify (shutdownPhaseMessage .db), Event.dbShutdown]
    else []) ++ ((if s.hasMds then
      [Event.notify (shutdownPhaseMessage .mds), Event.mdsShutdown]
    else []) ++ [Event.notify (shutdownPhaseMessage .restApi),
      Event.restManagerStop])) :=
    startsSafe_if _ _ _
      (startsSafe_notify_stop _ _ Subsystem.db _ (by rfl) rfl hmds) hmds
  have hsocks : startsSafe (Event.notify (shutdownPhaseMessage .socks) ::
      ((List.range s.numSocks).map Event.stopSocksServer ++
        ((if s.hasDb then
          [Event.notify (shutdownPhaseMessage .db), Event.dbShutdown]
        else []) ++ ((if s.hasMds then
          [Event.notify (shutdownPhaseMessage .mds), Event.mdsShutdown]
        else []) ++ [Event.notify (shutdownPhaseMessage .restApi),
          Event.restManagerStop])))) := by
    intro c
    rw [stopsNotified_cons_notify]
    have hm : subsystemOfState (shutdownPhaseMessage .socks) =
        some Subsystem.socks := by rfl
    rw [hm, stopsNotified_socks_run]
    exact hdb _
  have hdm : startsSafe (Event.notify (shutdownPhaseMessage .downloadManager) ::
      Event.dmShutdown :: (Event.notify (shutdownPhaseMessage .socks) ::
      ((List.range s.numSocks).map Event.stopSocksServer ++
        ((if s.hasDb then
          [Event.notify (shutdownPhaseMessage .db), Event.dbShutdown]
        else []) ++ ((if s.hasMds then
          [Event.notify (shutdownPhaseMessage .mds), Event.mdsShutdown]
        else []) ++ [Event.notify (shutdownPhaseMessage .restApi),
          Event.restManagerStop]))))) :=
    startsSafe_notify_stop _ _ Subsystem.downloadManager _ (by rfl) rfl hsocks
  have hipv8 := startsSafe_if s.hasIpv8
    [Event.notify (shutdownPhaseMessage .ipv8), Event.ipv8Stop] _
    (startsSafe_notify_stop _ _ Subsystem.ipv8 _ (by rfl) rfl hdm) hdm
  have htc := startsSafe_if s.hasTorrentChecker
    [Event.notify (shutdownPhaseMessage .torrentChecker),
     Event.torrentCheckerShutdown] _
    (startsSafe_notify_stop _ _ Subsystem.torrentChecker _ (by rfl) rfl hipv8)
    hipv8
  have hsh : shutdownSteps s =
      (if s.hasTorrentChecker then
        [Event.notify (shutdownPhaseMessage .torrentChecker),
         Event.torrentCheckerShutdown]
      else []) ++
        ((if s.hasIpv8 then
          [Event.notify (shutdownPhaseMessage .ipv8), Event.ipv8Stop]
        else []) ++
          (Event.notify (shutdownPhaseMessage .downloadManager) ::
            Event.dmShutdown ::
            (Event.notify (shutdownPhaseMessage .socks) ::
              ((List.range s.numSocks).map Event.stopSocksServer ++
                ((if s.hasDb then
                  [Event.notify (shutdownPhaseMessage .db), Event.dbShutdown]
                else []) ++ ((if s.hasMds then
                  [Event.notify (shutdownPhaseMessage .mds), Event.mdsShutdown]
                else []) ++ [Event.notify (shutdownPhaseMessage .restApi),
                  Event.restManagerStop])))))) := by
    simp [shutdownSteps, List.append_assoc]
  rw [hsh]
  exact htc none

/-- C7: in every run of `Session.shutdown` — whatever subset of statements
actually executes — each subsystem stop that is performed happens under
the `tribler_shutdown_state` notification announcing exactly its own
shutdown phase, immediately before the stop or before the ongoing run of
stops of the same subsystem (the SOCKS listeners are stopped as one
announced subsystem); no subsystem is ever stopped without the preceding
phase notification. -/
theorem shutdown_stops_behind_notifications (s : Session)
    (fail : Event → Option PyErr) :
    stopsNotified none (Session.shutdown s fail).1 = true := by
  obtain ⟨t, ht⟩ := runSteps_initial_segment fail (shutdownSteps s)
  have hfull : stopsNotified none (shutdownSteps s) = true :=
    shutdownSteps_stopsNotified s
  rw [ht] at hfull
  exact stopsNotified_append_left _ _ _ hfull
